import Mathlib

/-!
Verification of the Wavefront-OBJ parsing and mesh-building core of the
repository (`src/entity/model/files/obj.rs`) against its natural-language
specification.

Shallow embedding notes:
* Rust `f32` values are modelled by `Obj.F32`: finite values are carried as
  exact rationals.  Rounding of decimal literals to binary floats, overflow
  to infinity during parsing, NaN payload bits and the sign of zero are not
  modelled; every concrete float appearing in the specification's examples
  (`0`, `0.5`, `1.0`, `2.0`, `3.0`) is exactly representable, so the claims
  settled here do not depend on rounding.
* Rust strings are modelled as `List Char`; `str::split`, `str::split_once`
  and the `u32`/`f32` `FromStr` implementations are modelled by the
  executable functions below.
* Fallible Rust code returning `Result` is embedded with `Except`; code that
  can additionally panic (`todo!`, out-of-bounds slice writes) is embedded
  with `Obj.POutcome`, whose `crashed` constructor marks a panic.
* `&mut self` methods on the mesh builder are embedded by explicit state
  passing: they take an `ObjectBuilder` and return the outcome together with
  the builder state at the point the method returned, following the source's
  statement order.
-/

deriving instance DecidableEq for Except

namespace Obj

/-- Model of a Rust `f32` value.  Finite values are exact rationals; NaN is a
single distinguished point (payload and sign bits are not modelled) and the
two infinities carry their sign.  Structural equality of this type plays the
role of bit-for-bit equality of `f32` values. -/
inductive F32 where
  | nan : F32
  | inf (neg : Bool) : F32
  | fin (val : Rat) : F32
deriving DecidableEq

/-- Rust `f32`'s `PartialEq`: NaN compares unequal to everything, including
itself; finite values and infinities compare by value. -/
def F32.feq : F32 → F32 → Bool
  | .nan, _ => false
  | _, .nan => false
  | .inf a, .inf b => a == b
  | .fin a, .fin b => a == b
  | _, _ => false

/-- The `f32` value `0.0` (the `Default` value of Rust's `f32`). -/
def F32.zero : F32 := .fin 0

/-- The `f32` value `1.0`. -/
def F32.one : F32 := .fin 1

/-- Outcome of Rust code that may return a value, return an error, or panic.
`crashed` marks a panic (`todo!`, out-of-bounds indexing); a panicking call
never returns to its caller. -/
inductive POutcome (ε : Type) (α : Type) where
  | ok (a : α) : POutcome ε α
  | err (e : ε) : POutcome ε α
  | crashed : POutcome ε α
deriving DecidableEq

/-- Model of Rust `str::split(sep)` generalised to a predicate: splits a
character list at every separator.  Like the Rust iterator it always yields
at least one (possibly empty) segment, and adjacent separators yield empty
segments. -/
def splitPred (p : Char → Bool) : List Char → List (List Char)
  | [] => [[]]
  | c :: rest =>
    if p c then [] :: splitPred p rest
    else
      match splitPred p rest with
      | [] => [[c]]
      | g :: gs => (c :: g) :: gs

/-- Model of Rust `str::split(sep)` for a single separator character. -/
def splitChar (sep : Char) (cs : List Char) : List (List Char) :=
  splitPred (· == sep) cs

/-- Model of Rust `str::split_once(sep)`: splits at the first occurrence of
the separator, or returns `none` when the separator does not occur. -/
def splitOnceChar (sep : Char) : List Char → Option (List Char × List Char)
  | [] => none
  | c :: rest =>
    if c == sep then some ([], rest)
    else (splitOnceChar sep rest).map (fun q => (c :: q.1, q.2))

/-- Model of Rust `std::num::ParseIntError` (its `IntErrorKind`s reachable
through `u32::from_str`). -/
inductive ParseIntError where
  | empty : ParseIntError
  | invalidDigit : ParseIntError
  | posOverflow : ParseIntError
deriving DecidableEq

/-- Model of Rust `std::num::ParseFloatError` (kind not distinguished; no
claim inspects it). -/
inductive ParseFloatErr where
  | invalid : ParseFloatErr
deriving DecidableEq

/-- Digit value of an ASCII digit character. -/
def charDigit (c : Char) : Option Nat :=
  if c.isDigit then some (c.toNat - 48) else none

/-- Digit-accumulation loop of Rust `u32::from_str`: rejects any non-digit
character and fails with `posOverflow` as soon as the accumulator leaves the
`u32` range. -/
def parseU32Digits : List Char → Nat → Except ParseIntError Nat
  | [], acc => .ok acc
  | c :: rest, acc =>
    match charDigit c with
    | none => .error .invalidDigit
    | some d =>
      let acc2 := acc * 10 + d
      if acc2 < 4294967296 then parseU32Digits rest acc2
      else .error .posOverflow

/-- Model of Rust `u32::from_str`: empty input fails with `empty`, an
optional leading `+` is allowed, every remaining character must be an ASCII
digit, and the value must fit in 32 bits. -/
def parseU32Chars : List Char → Except ParseIntError Nat
  | [] => .error .empty
  | '+' :: rest =>
    match rest with
    | [] => .error .invalidDigit
    | _ => parseU32Digits rest 0
  | cs => parseU32Digits cs 0

/-- Numeric value of a digit string (most significant digit first). -/
def digitsToNat (cs : List Char) : Nat :=
  cs.foldl (fun a c => a * 10 + (c.toNat - 48)) 0

/-- Mantissa of the Rust float grammar: `Digit+`, `Digit+ '.' Digit*` or
`Digit* '.' Digit+`, valued as an exact numerator/denominator pair (the
value is numerator divided by denominator; arithmetic is kept in `Nat` so
that every parse kernel-evaluates). -/
def parseMantissaChars (cs : List Char) : Option (Nat × Nat) :=
  match splitChar '.' cs with
  | [ds] =>
    if ds.isEmpty then none
    else if ds.all Char.isDigit then some (digitsToNat ds, 1)
    else none
  | [ip, fp] =>
    if ip.isEmpty && fp.isEmpty then none
    else if (ip ++ fp).all Char.isDigit then
      some (digitsToNat ip * 10 ^ fp.length + digitsToNat fp, 10 ^ fp.length)
    else none
  | _ => none

/-- Exponent part of the Rust float grammar: optional sign then `Digit+`. -/
def parseExpChars (cs : List Char) : Option Int :=
  let (neg, ds) :=
    match cs with
    | '-' :: r => (true, r)
    | '+' :: r => (false, r)
    | _ => (false, cs)
  if ds.isEmpty then none
  else if ds.all Char.isDigit then
    some (if neg then -(digitsToNat ds : Int) else (digitsToNat ds : Int))
  else none

/-- Assemble the exact rational value `(num / den) * 10 ^ e` of a mantissa
pair and decimal exponent. -/
def decValue (num den : Nat) (e : Int) : Rat :=
  match e with
  | .ofNat k => Rat.divInt (num * 10 ^ k) den
  | .negSucc k => Rat.divInt num (den * 10 ^ (k + 1))

/-- Number production of the Rust float grammar: mantissa with an optional
`e`/`E` exponent, valued exactly as a rational. -/
def parseNumberChars (cs : List Char) : Option Rat :=
  match splitPred (fun c => c == 'e' || c == 'E') cs with
  | [m] => (parseMantissaChars m).map (fun p => decValue p.1 p.2 0)
  | [m, ex] =>
    match parseMantissaChars m, parseExpChars ex with
    | some p, some e => some (decValue p.1 p.2 e)
    | _, _ => none
  | _ => none

/-- Model of Rust `f32::from_str`: optional sign, then (case-insensitively)
`inf`/`infinity`/`nan` or a decimal number.  `none` models the parse error.
Rounding of the exact decimal value to `f32` is not modelled. -/
def parseF32Chars (cs : List Char) : Option F32 :=
  let (neg, body) :=
    match cs with
    | '-' :: r => (true, r)
    | '+' :: r => (false, r)
    | _ => (false, cs)
  let low := body.map Char.toLower
  if low = "nan".toList then some .nan
  else if low = "inf".toList || low = "infinity".toList then some (.inf neg)
  else (parseNumberChars body).map (fun q => .fin (if neg then -q else q))

/-- The error type of `obj.rs` (`enum Error`).  The `IO(std::io::Error)`
variant is omitted: no claim concerns the file driver, and `std::io::Error`
values never arise in the parsing and building code embedded here. -/
inductive Error where
  | MissingTag : Error
  | UnrecognizedTag : Error
  | ParseIntError (e : ParseIntError) : Error
  | ParseFloatError (e : ParseFloatErr) : Error
  | MissingNumber : Error
  | MissingNormal : Error
  | MissingTextureCoord : Error
  | InvalidIndex : Error
deriving DecidableEq

/-- `struct VertexIndices`: a face corner's raw attribute references.
`position` is a plain `u32` (modelled as `Nat`; the parser guarantees the
`u32` range); `texture_coords` and `normal` are `Option<NonZeroU32>`,
modelled as `Option Nat` whose payload the constructor below keeps
non-zero. -/
structure VertexIndices where
  position : Nat
  texture_coords : Option Nat
  normal : Option Nat
deriving DecidableEq

/-- Rust `NonZeroU32::new`: `0` becomes `none`. -/
def nonZeroU32New (n : Nat) : Option Nat :=
  if n = 0 then none else some n

/-- Store a parsed value into slot `idx` of the three-slot array
`[position, texture_coords, normal]` of `VertexIndices::from_str`. -/
def setSlot (a : Nat × Nat × Nat) (idx : Nat) (v : Nat) : Nat × Nat × Nat :=
  match idx with
  | 0 => (v, a.2.1, a.2.2)
  | 1 => (a.1, v, a.2.2)
  | _ => (a.1, a.2.1, v)

/-- The `for (index, s) in indices_str.split('/').enumerate()` loop of
`VertexIndices::from_str`.  Empty segments are skipped; a non-empty segment
is parsed first (Rust evaluates the right-hand side of
`indices[index] = s.parse()?` before indexing), and a successful parse at a
slot index `≥ 3` then panics on the out-of-bounds array write. -/
def fillIndices : List (List Char) → Nat → Nat × Nat × Nat →
    POutcome ParseIntError (Nat × Nat × Nat)
  | [], _, a => .ok a
  | s :: rest, idx, a =>
    if s.isEmpty then fillIndices rest (idx + 1) a
    else
      match parseU32Chars s with
      | .error e => .err e
      | .ok v =>
        if idx < 3 then fillIndices rest (idx + 1) (setSlot a idx v)
        else .crashed

/-- `VertexIndices::from_str` on a character list: split the token on `/`,
fill the three slots, and fold `0` in the texture-coordinate and normal
slots to "absent" via `NonZeroU32::new`. -/
def VertexIndices.fromChars (cs : List Char) : POutcome ParseIntError VertexIndices :=
  match fillIndices (splitChar '/' cs) 0 (0, 0, 0) with
  | .ok a => .ok ⟨a.1, nonZeroU32New a.2.1, nonZeroU32New a.2.2⟩
  | .err e => .err e
  | .crashed => .crashed

/-- `impl FromStr for VertexIndices`. -/
def VertexIndices.fromStr (s : String) : POutcome ParseIntError VertexIndices :=
  VertexIndices.fromChars s.toList

/-- `struct Vertex`: a raw 4-component position/normal record. -/
structure Vertex where
  x : F32
  y : F32
  z : F32
  w : F32
deriving DecidableEq

/-- `Vertex::default()`: all components `0.0`. -/
def Vertex.default : Vertex := ⟨.zero, .zero, .zero, .zero⟩

/-- `impl FromStr for Vertex` on a character list: split on single spaces,
take `x`, `y`, `z` as mandatory floats (a missing token is `MissingNumber`),
and `w` as an optional float defaulting to `1.0`; any token past the fourth
is never consumed. -/
def Vertex.fromChars (cs : List Char) : Except Error Vertex :=
  match splitChar ' ' cs with
  | [] => .error .MissingNumber
  | t1 :: r1 =>
    match parseF32Chars t1 with
    | none => .error (.ParseFloatError .invalid)
    | some x =>
      match r1 with
      | [] => .error .MissingNumber
      | t2 :: r2 =>
        match parseF32Chars t2 with
        | none => .error (.ParseFloatError .invalid)
        | some y =>
          match r2 with
          | [] => .error .MissingNumber
          | t3 :: r3 =>
            match parseF32Chars t3 with
            | none => .error (.ParseFloatError .invalid)
            | some z =>
              match r3 with
              | [] => .ok ⟨x, y, z, .one⟩
              | t4 :: _ =>
                match parseF32Chars t4 with
                | none => .error (.ParseFloatError .invalid)
                | some w => .ok ⟨x, y, z, w⟩

/-- `impl FromStr for Vertex`. -/
def Vertex.fromStr (s : String) : Except Error Vertex :=
  Vertex.fromChars s.toList

/-- `struct TextureCoords`: a raw 3-component texture-coordinate record. -/
structure TextureCoords where
  u : F32
  v : F32
  w : F32
deriving DecidableEq

/-- `TextureCoords::default()`: all components `0.0`. -/
def TextureCoords.default : TextureCoords := ⟨.zero, .zero, .zero⟩

/-- `impl FromStr for TextureCoords`: `u`, `v` mandatory, `w` optional with
default `1.0`. -/
def TextureCoords.fromChars (cs : List Char) : Except Error TextureCoords :=
  match splitChar ' ' cs with
  | [] => .error .MissingNumber
  | t1 :: r1 =>
    match parseF32Chars t1 with
    | none => .error (.ParseFloatError .invalid)
    | some u =>
      match r1 with
      | [] => .error .MissingNumber
      | t2 :: r2 =>
        match parseF32Chars t2 with
        | none => .error (.ParseFloatError .invalid)
        | some v =>
          match r2 with
          | [] => .ok ⟨u, v, .one⟩
          | t3 :: _ =>
            match parseF32Chars t3 with
            | none => .error (.ParseFloatError .invalid)
            | some w => .ok ⟨u, v, w⟩

/-- `impl FromStr for TextureCoords`. -/
def TextureCoords.fromStr (s : String) : Except Error TextureCoords :=
  TextureCoords.fromChars s.toList

/-- `enum Line<'a>`: one parsed directive.  `Cow<'a, str>` payloads are
modelled as `String` (borrowed-versus-owned is a memory concern with no
bearing on any claim).  The source's `Line::Line` line-segment constructor
is renamed `LineSeg` because a constructor sharing its type's name would
shadow the type here. -/
inductive Line where
  | Vertex (v : Vertex) : Line
  | Normal (v : Vertex) : Line
  | TextureCoords (tc : TextureCoords) : Line
  | Point (p : VertexIndices) : Line
  | LineSeg (p1 p2 : VertexIndices) : Line
  | Face (p1 p2 p3 : VertexIndices) : Line
  | SmoothingGroup (g : Option Nat) : Line
  | Group (name : String) : Line
  | UseMtl (name : String) : Line
  | MtlLib (name : String) : Line
  | Name (name : String) : Line
  | Comment (text : String) : Line
deriving DecidableEq

/-- The `"f"` arm of `Line::process_line`: consume exactly three corner
tokens from the space-split remainder (a missing one is `MissingNumber`),
parse each as `VertexIndices` (propagating integer-parse errors and the
parser's possible panic), and ignore any tokens past the third. -/
def faceFromTokens : List (List Char) → POutcome Error Line
  | [] => .err .MissingNumber
  | t1 :: r1 =>
    match VertexIndices.fromChars t1 with
    | .crashed => .crashed
    | .err e => .err (.ParseIntError e)
    | .ok p1 =>
      match r1 with
      | [] => .err .MissingNumber
      | t2 :: r2 =>
        match VertexIndices.fromChars t2 with
        | .crashed => .crashed
        | .err e => .err (.ParseIntError e)
        | .ok p2 =>
          match r2 with
          | [] => .err .MissingNumber
          | t3 :: _ =>
            match VertexIndices.fromChars t3 with
            | .crashed => .crashed
            | .err e => .err (.ParseIntError e)
            | .ok p3 => .ok (.Face p1 p2 p3)

/-- The `"l"` arm of `Line::process_line`: two corner tokens, extras
ignored. -/
def lineSegFromTokens : List (List Char) → POutcome Error Line
  | [] => .err .MissingNumber
  | t1 :: r1 =>
    match VertexIndices.fromChars t1 with
    | .crashed => .crashed
    | .err e => .err (.ParseIntError e)
    | .ok p1 =>
      match r1 with
      | [] => .err .MissingNumber
      | t2 :: _ =>
        match VertexIndices.fromChars t2 with
        | .crashed => .crashed
        | .err e => .err (.ParseIntError e)
        | .ok p2 => .ok (.LineSeg p1 p2)

/-- `Line::process_line` on a character list: split the line at the first
space into tag and remainder (no space is `MissingTag`) and dispatch on the
tag exactly as the source does. -/
def Line.processChars (cs : List Char) : POutcome Error Line :=
  match splitOnceChar ' ' cs with
  | none => .err .MissingTag
  | some (tag, rest) =>
    if tag = "#".toList then .ok (.Comment (String.mk rest))
    else if tag = "o".toList then .ok (.Name (String.mk rest))
    else if tag = "usemtl".toList then .ok (.UseMtl (String.mk rest))
    else if tag = "mtllib".toList then .ok (.MtlLib (String.mk rest))
    else if tag = "g".toList then .ok (.Group (String.mk rest))
    else if tag = "v".toList then
      match Vertex.fromChars rest with
      | .ok v => .ok (.Vertex v)
      | .error e => .err e
    else if tag = "vt".toList then
      match TextureCoords.fromChars rest with
      | .ok tc => .ok (.TextureCoords tc)
      | .error e => .err e
    else if tag = "vn".toList then
      match Vertex.fromChars rest with
      | .ok v => .ok (.Normal v)
      | .error e => .err e
    else if tag = "p".toList then
      match VertexIndices.fromChars rest with
      | .crashed => .crashed
      | .err e => .err (.ParseIntError e)
      | .ok p => .ok (.Point p)
    else if tag = "l".toList then lineSegFromTokens (splitChar ' ' rest)
    else if tag = "f".toList then faceFromTokens (splitChar ' ' rest)
    else if tag = "s".toList then
      if rest = "off".toList then .ok (.SmoothingGroup none)
      else
        match parseU32Chars rest with
        | .error e => .err (.ParseIntError e)
        | .ok n => .ok (.SmoothingGroup (nonZeroU32New n))
    else .err .UnrecognizedTag

/-- `Line::process_line` on a string. -/
def Line.process_line (line : String) : POutcome Error Line :=
  Line.processChars line.toList

/-- Modelled from the spec: `crate::entity::model::Vertex` (the spec's
OutputVertex) is declared in `entity/model/mod.rs`, which is not among the
provided source files; `obj.rs` only constructs and compares its values.
Per the spec's data model it carries position (3 floats), normal (3 floats)
and texture coordinate (2 floats), and "two OutputVertex values are equal
iff all nine floats compare bit-for-bit equal (no epsilon tolerance)" — so
its `==` is modelled as structural (bit-for-bit) equality of this type,
which `DecidableEq` provides. -/
structure ModelVertex where
  position : F32 × F32 × F32
  normal : F32 × F32 × F32
  texture_coords : F32 × F32
deriving DecidableEq

/-- Rust `Iterator::position`: index of the first element satisfying the
predicate. -/
def listPosition (p : α → Bool) : List α → Option Nat
  | [] => none
  | x :: xs => if p x then some 0 else (listPosition p xs).map (· + 1)

/-- `struct ObjectBuilder`: the mesh builder's state.  Vectors become lists;
`mesh_indices : Vec<u32>` becomes `List Nat` (`add_vertex`'s `pos as u32`
cast cannot truncate for any pool a finite directive stream can build). -/
structure ObjectBuilder where
  vertices : List Vertex
  normals : List Vertex
  texture_coords : List TextureCoords
  indices : List VertexIndices
  mesh_vertices : List ModelVertex
  mesh_indices : List Nat
deriving DecidableEq

/-- `ObjectBuilder::new()`: every buffer empty. -/
def ObjectBuilder.new : ObjectBuilder :=
  ⟨[], [], [], [], [], []⟩

/-- `ObjectBuilder::add_vertex`: linear scan of the output pool for an entry
equal to `v`; reuse its position, or append `v` at the end and return the
fresh position. -/
def ObjectBuilder.add_vertex (b : ObjectBuilder) (v : ModelVertex) :
    Nat × ObjectBuilder :=
  match listPosition (fun vi => vi == v) b.mesh_vertices with
  | some pos => (pos, b)
  | none => (b.mesh_vertices.length,
      { b with mesh_vertices := b.mesh_vertices ++ [v] })

/-- `ObjectBuilder::get_vertex`: resolve a corner's references against the
raw pools, in the source's order (position, then normal, then texture
coordinate).  Each lookup uses the reference value as a 0-based index with
no adjustment; an out-of-range lookup yields `none` via `?`.  An absent
normal or texture-coordinate reference falls back to the all-zero `Default`
record. -/
def ObjectBuilder.get_vertex (b : ObjectBuilder) (v : VertexIndices) :
    Option ModelVertex :=
  match b.vertices[v.position]? with
  | none => none
  | some vertex =>
    match (match v.normal with
           | some ni => b.normals[ni]?
           | none => some Vertex.default) with
    | none => none
    | some normal =>
      match (match v.texture_coords with
             | some ti => b.texture_coords[ti]?
             | none => some TextureCoords.default) with
      | none => none
      | some tc =>
        some ⟨(vertex.x, vertex.y, vertex.z),
              (normal.x, normal.y, normal.z),
              (tc.u, tc.v)⟩

/-- `ObjectBuilder::handle_face`, with the builder state threaded explicitly
in the source's statement order: the two corner-consistency checks run
first, then the three resolutions, then the three interns, then the three
index pushes; each early `return Err` carries the builder state at that
point. -/
def ObjectBuilder.handle_face (b : ObjectBuilder) (v1 v2 v3 : VertexIndices) :
    Except Error Unit × ObjectBuilder :=
  if v1.texture_coords.isSome != v2.texture_coords.isSome
      || v2.texture_coords.isSome != v3.texture_coords.isSome then
    (.error .MissingTextureCoord, b)
  else if v1.normal.isSome != v2.normal.isSome
      || v2.normal.isSome != v3.normal.isSome then
    (.error .MissingNormal, b)
  else
    match b.get_vertex v1 with
    | none => (.error .InvalidIndex, b)
    | some w1 =>
      match b.get_vertex v2 with
      | none => (.error .InvalidIndex, b)
      | some w2 =>
        match b.get_vertex v3 with
        | none => (.error .InvalidIndex, b)
        | some w3 =>
          let r1 := b.add_vertex w1
          let r2 := r1.2.add_vertex w2
          let r3 := r2.2.add_vertex w3
          (.ok (), { r3.2 with
                     mesh_indices := r3.2.mesh_indices ++ [r1.1, r2.1, r3.1] })

/-- `ObjectBuilder::process_line` (the spec's `process_directive`): record
directives push onto the corresponding raw pool, `Face` goes to
`handle_face`, and every other directive kind hits a `todo!` panic, modelled
as `crashed` with the builder untouched. -/
def ObjectBuilder.process_line (b : ObjectBuilder) (l : Line) :
    POutcome Error Unit × ObjectBuilder :=
  match l with
  | .Vertex v => (.ok (), { b with vertices := b.vertices ++ [v] })
  | .Normal n => (.ok (), { b with normals := b.normals ++ [n] })
  | .TextureCoords tc =>
      (.ok (), { b with texture_coords := b.texture_coords ++ [tc] })
  | .Face v1 v2 v3 =>
      match b.handle_face v1 v2 v3 with
      | (.ok _, b2) => (.ok (), b2)
      | (.error e, b2) => (.err e, b2)
  | .Point _ => (.crashed, b)
  | .LineSeg _ _ => (.crashed, b)
  | .SmoothingGroup _ => (.crashed, b)
  | .Group _ => (.crashed, b)
  | .UseMtl _ => (.crashed, b)
  | .MtlLib _ => (.crashed, b)
  | .Name _ => (.crashed, b)
  | .Comment _ => (.crashed, b)

/-- `ObjectBuilder::process_lines` (the spec's `process_all`): fail-fast
left fold of `process_line`. -/
def ObjectBuilder.process_lines (b : ObjectBuilder) :
    List Line → POutcome Error Unit × ObjectBuilder
  | [] => (.ok (), b)
  | l :: ls =>
    match b.process_line l with
    | (.ok _, b2) => b2.process_lines ls
    | (.err e, b2) => (.err e, b2)
    | (.crashed, b2) => (.crashed, b2)

/-- The directive kinds whose `ObjectBuilder::process_line` arm is a `todo!`
(everything except Vertex, Normal, TextureCoords and Face). -/
def Line.isUnsupportedDirective : Line → Bool
  | .Vertex _ => false
  | .Normal _ => false
  | .TextureCoords _ => false
  | .Face _ _ _ => false
  | _ => true

/-- The spec's dedup invariant on the output vertex pool: no two distinct
entries are value-equal. -/
def PoolDedup (b : ObjectBuilder) : Prop :=
  List.Pairwise (fun a c => a ≠ c) b.mesh_vertices

/-- Builder states reachable from `ObjectBuilder::new()` by any sequence of
the builder's operations: the three `record` pushes, `add_vertex`,
`handle_face`, and `process_line` (which also covers `process_lines`). -/
inductive Reachable : ObjectBuilder → Prop where
  | new : Reachable ObjectBuilder.new
  | record_vertex (b : ObjectBuilder) (v : Vertex) : Reachable b →
      Reachable { b with vertices := b.vertices ++ [v] }
  | record_normal (b : ObjectBuilder) (n : Vertex) : Reachable b →
      Reachable { b with normals := b.normals ++ [n] }
  | record_texture_coords (b : ObjectBuilder) (tc : TextureCoords) :
      Reachable b →
      Reachable { b with texture_coords := b.texture_coords ++ [tc] }
  | add_vertex (b : ObjectBuilder) (v : ModelVertex) : Reachable b →
      Reachable (b.add_vertex v).2
  | handle_face (b : ObjectBuilder) (v1 v2 v3 : VertexIndices) :
      Reachable b → Reachable (b.handle_face v1 v2 v3).2
  | process_line (b : ObjectBuilder) (l : Line) : Reachable b →
      Reachable (b.process_line l).2

/-- The spec's corner-consistency condition: an attribute reference is
present on some but not all of the three corners (`a`, `b`, `c` are the
three presence flags). -/
def someButNotAll (a b c : Bool) : Prop :=
  (a = true ∨ b = true ∨ c = true) ∧ (a = false ∨ b = false ∨ c = false)

instance (a b c : Bool) : Decidable (someButNotAll a b c) := by
  unfold someButNotAll; infer_instance

/-- Builder state after recording three positions, three texture
coordinates and three normals (in that directive order) into a fresh
builder. -/
def recordedThree (p1 p2 p3 n1 n2 n3 : Vertex) (t1 t2 t3 : TextureCoords) :
    ObjectBuilder :=
  ⟨[p1, p2, p3], [n1, n2, n3], [t1, t2, t3], [], [], []⟩

/-- A concrete builder holding one raw position, used by witnesses. -/
def oneVertexBuilder : ObjectBuilder :=
  ⟨[⟨F32.fin 1, F32.fin 2, F32.fin 3, F32.one⟩], [], [], [], [], []⟩

/-! ## Helper lemmas -/

theorem listPosition_eq_none_iff {α : Type} {p : α → Bool} {l : List α} :
    listPosition p l = none ↔ ∀ x ∈ l, p x = false := by
  induction l with
  | nil => simp [listPosition]
  | cons a as ih =>
    by_cases hpa : p a
    · simp [listPosition, hpa]
    · simp [listPosition, hpa, Option.map_eq_none', ih,
        Bool.eq_false_iff.mpr hpa]

theorem listPosition_append_singleton {α : Type} {p : α → Bool} {l : List α}
    (h : listPosition p l = none) (v : α) (hv : p v = true) :
    listPosition p (l ++ [v]) = some l.length := by
  induction l with
  | nil => simp [listPosition, hv]
  | cons a as ih =>
    simp only [listPosition] at h
    by_cases hpa : p a
    · rw [if_pos hpa] at h; exact absurd h (by simp)
    · rw [if_neg hpa] at h
      have h2 : listPosition p as = none := Option.map_eq_none'.mp h
      simp [listPosition, hpa, ih h2, List.length_cons]

/-- `add_vertex` preserves the dedup invariant: it only appends when the
linear scan found no equal entry. -/
theorem add_vertex_pool_dedup (b : ObjectBuilder) (v : ModelVertex)
    (h : PoolDedup b) : PoolDedup (b.add_vertex v).2 := by
  unfold ObjectBuilder.add_vertex
  cases hf : listPosition (fun vi => vi == v) b.mesh_vertices with
  | some pos => exact h
  | none =>
    have hall := listPosition_eq_none_iff.mp hf
    simp only [PoolDedup] at h ⊢
    rw [List.pairwise_append]
    refine ⟨h, List.pairwise_singleton _ _, ?_⟩
    intro a ha c hc
    have : (a == v) = false := hall a ha
    have hne : a ≠ v := by
      intro hEq; rw [hEq, beq_self_eq_true] at this; exact Bool.false_ne_true this.symm
    simpa [List.mem_singleton.mp hc] using hne

/-- `handle_face` preserves the dedup invariant. -/
theorem handle_face_pool_dedup (b : ObjectBuilder) (v1 v2 v3 : VertexIndices)
    (h : PoolDedup b) : PoolDedup (b.handle_face v1 v2 v3).2 := by
  unfold ObjectBuilder.handle_face
  split
  · exact h
  · split
    · exact h
    · cases b.get_vertex v1 with
      | none => exact h
      | some w1 =>
        cases b.get_vertex v2 with
        | none => exact h
        | some w2 =>
          cases b.get_vertex v3 with
          | none => exact h
          | some w3 =>
            simp only [PoolDedup]
            exact add_vertex_pool_dedup _ w3
              (add_vertex_pool_dedup _ w2 (add_vertex_pool_dedup _ w1 h))

/-- `process_line` preserves the dedup invariant. -/
theorem process_line_pool_dedup (b : ObjectBuilder) (l : Line)
    (h : PoolDedup b) : PoolDedup (b.process_line l).2 := by
  cases l with
  | Face v1 v2 v3 =>
    have := handle_face_pool_dedup b v1 v2 v3 h
    simp only [ObjectBuilder.process_line]
    cases hf : b.handle_face v1 v2 v3 with
    | mk r b2 =>
      cases r with
      | ok u => simpa [hf] using this
      | error e => simpa [hf] using this
  | Vertex v => exact h
  | Normal n => exact h
  | TextureCoords tc => exact h
  | Point p => exact h
  | LineSeg p1 p2 => exact h
  | SmoothingGroup g => exact h
  | Group s => exact h
  | UseMtl s => exact h
  | MtlLib s => exact h
  | Name s => exact h
  | Comment s => exact h

theorem someButNotAll_iff (a b c : Bool) :
    someButNotAll a b c ↔ (a != b || b != c) = true := by
  revert a b c; decide

theorem nonZeroU32New_ne_some_zero (n : Nat) : nonZeroU32New n ≠ some 0 := by
  unfold nonZeroU32New
  split
  · simp
  · simp; omega

theorem drop_three_mem {rest : List (List Char)} {s t : List Char}
    (idx : Nat) (h : ∀ u ∈ (s :: rest).drop (3 - idx), u.isEmpty = true)
    (ht : t ∈ rest.drop (3 - (idx + 1))) : t.isEmpty = true := by
  apply h
  rcases Nat.lt_or_ge idx 3 with hlt | hge
  · have h3 : 3 - idx = (3 - (idx + 1)) + 1 := by omega
    rw [h3, List.drop_succ_cons]
    exact ht
  · have h0 : 3 - idx = 0 := by omega
    have h1 : 3 - (idx + 1) = 0 := by omega
    rw [h0]
    rw [h1] at ht
    simp only [List.drop_zero] at ht ⊢
    exact List.mem_cons_of_mem s ht

/-- The fill loop of `VertexIndices::from_str` cannot reach its
out-of-bounds panic when every segment past the third is empty. -/
theorem fillIndices_ne_crashed (segs : List (List Char)) (idx : Nat)
    (a : Nat × Nat × Nat)
    (h : ∀ s ∈ segs.drop (3 - idx), s.isEmpty = true) :
    fillIndices segs idx a ≠ .crashed := by
  induction segs generalizing idx a with
  | nil => simp [fillIndices]
  | cons s rest ih =>
    by_cases hs : s.isEmpty = true
    · simp only [fillIndices, hs, if_true]
      exact ih (idx + 1) a (fun t ht => drop_three_mem idx h ht)
    · have hidx : idx < 3 := by
        by_contra hge
        have h0 : 3 - idx = 0 := by omega
        have hmem : s ∈ (s :: rest).drop (3 - idx) := by
          rw [h0]; exact List.mem_cons_self s rest
        exact hs (h s hmem)
      cases hp : parseU32Chars s with
      | error e => simp [fillIndices, hs, hp]
      | ok v =>
        simp only [fillIndices, hs, hp, if_pos hidx, if_false]
        exact ih (idx + 1) (setSlot a idx v) (fun t ht => drop_three_mem idx h ht)

/-! ## Claims -/

/-- Claim C2 (counterexample): on a `Comment` directive —one of the kinds the
claim says yields a distinguished "unsupported directive" result value—
`ObjectBuilder::process_line` does not return a result at all: its arm is a
`todo!` panic, modelled by the `crashed` outcome, which is a distinct
constructor from both `ok` and `err`. -/
theorem unsupported_directive_result_counterexample :
    ObjectBuilder.new.process_line (Line.Comment "hello")
      = (POutcome.crashed, ObjectBuilder.new) := by
  rfl

/-- Claim C2 (amended): for every directive kind other than Vertex, Normal,
TextureCoords and Face, `ObjectBuilder::process_line` aborts with a
`todo!`-style panic (a `crashed` outcome, not a returned `Result` value),
leaving the builder untouched. -/
theorem unsupported_directive_crashes (b : ObjectBuilder) (l : Line)
    (h : l.isUnsupportedDirective = true) :
    b.process_line l = (POutcome.crashed, b) := by
  cases l <;> first
    | rfl
    | simp [Line.isUnsupportedDirective] at h

/-- Claim C2 (witness): the amended claim at a concrete unsupported
directive. -/
theorem unsupported_directive_crashes_witness :
    ObjectBuilder.new.process_line (Line.Point ⟨1, none, none⟩)
      = (POutcome.crashed, ObjectBuilder.new) :=
  unsupported_directive_crashes ObjectBuilder.new (Line.Point ⟨1, none, none⟩)
    (by decide)

/-- Claim C4: interning the same `model::Vertex` value twice in succession
returns the same pool index both times, and the pool length after the second
call equals the length after the first (the second call always finds the
entry the first call found or appended; equality of entries is the
spec-modelled bit-for-bit equality, which is reflexive). -/
theorem add_vertex_idempotent (b : ObjectBuilder) (v : ModelVertex) :
    ((b.add_vertex v).2.add_vertex v).1 = (b.add_vertex v).1 ∧
    ((b.add_vertex v).2.add_vertex v).2.mesh_vertices.length
      = (b.add_vertex v).2.mesh_vertices.length := by
  unfold ObjectBuilder.add_vertex
  cases hf : listPosition (fun vi => vi == v) b.mesh_vertices with
  | some pos => simp [hf]
  | none =>
    have happ := listPosition_append_singleton hf v (beq_self_eq_true v)
    simp [hf, happ]

/-- Claim C9: `v 1.0 2.0 3.0` parses to position (1, 2, 3, 1) with the
optional `w` defaulting to 1; `vt 0.5 0.5` parses to (0.5, 0.5, 1); and a
missing mandatory component fails with `MissingNumber`. -/
theorem numeric_line_examples :
    Line.process_line "v 1.0 2.0 3.0"
      = .ok (.Vertex ⟨.fin 1, .fin 2, .fin 3, .fin 1⟩) ∧
    Line.process_line "vt 0.5 0.5"
      = .ok (.TextureCoords ⟨.fin (Rat.divInt 1 2), .fin (Rat.divInt 1 2), .fin 1⟩) ∧
    Line.process_line "v 1.0 2.0" = .err .MissingNumber ∧
    Line.process_line "vt 0.5" = .err .MissingNumber := by
  refine ⟨?_, ?_, ?_, ?_⟩ <;> decide

/-- Claim C10: `handle_face` is atomic on failure — whenever it returns an
error, the builder it hands back is exactly the builder it was given (all
six buffers unchanged); every early `return Err` happens before the first
mutation. -/
theorem handle_face_atomic (b : ObjectBuilder) (v1 v2 v3 : VertexIndices)
    (e : Error) (h : (b.handle_face v1 v2 v3).1 = .error e) :
    (b.handle_face v1 v2 v3).2 = b := by
  by_cases hc1 : (v1.texture_coords.isSome != v2.texture_coords.isSome
      || v2.texture_coords.isSome != v3.texture_coords.isSome) = true
  · simp [ObjectBuilder.handle_face, hc1]
  · by_cases hc2 : (v1.normal.isSome != v2.normal.isSome
        || v2.normal.isSome != v3.normal.isSome) = true
    · simp [ObjectBuilder.handle_face, hc1, hc2]
    · cases hg1 : b.get_vertex v1 with
      | none => simp [ObjectBuilder.handle_face, hc1, hc2, hg1]
      | some w1 =>
        cases hg2 : b.get_vertex v2 with
        | none => simp [ObjectBuilder.handle_face, hc1, hc2, hg1, hg2]
        | some w2 =>
          cases hg3 : b.get_vertex v3 with
          | none => simp [ObjectBuilder.handle_face, hc1, hc2, hg1, hg2, hg3]
          | some w3 =>
            exfalso
            simp [ObjectBuilder.handle_face, hc1, hc2, hg1, hg2, hg3] at h

/-- Claim C10 (witness): a concrete failing `handle_face` call leaves the
fresh builder unchanged. -/
theorem handle_face_atomic_witness :
    (ObjectBuilder.new.handle_face ⟨0, none, none⟩ ⟨0, none, none⟩
        ⟨0, none, none⟩).2 = ObjectBuilder.new :=
  handle_face_atomic ObjectBuilder.new ⟨0, none, none⟩ ⟨0, none, none⟩
    ⟨0, none, none⟩ .InvalidIndex (by decide)

/-- Claim C3: in every builder state reachable by any sequence of
operations, no two distinct entries of the output vertex pool are
value-equal, value-equality of `model::Vertex` being the spec-modelled
bit-for-bit equality of the nine floats (structural equality of
`ModelVertex`); each operation preserves the invariant (see
`add_vertex_pool_dedup`, `handle_face_pool_dedup`,
`process_line_pool_dedup`). -/
theorem reachable_pool_dedup (b : ObjectBuilder) (h : Reachable b) :
    PoolDedup b := by
  induction h with
  | new => simp [PoolDedup, ObjectBuilder.new]
  | record_vertex b v _ ih => exact ih
  | record_normal b n _ ih => exact ih
  | record_texture_coords b tc _ ih => exact ih
  | add_vertex b v _ ih => exact add_vertex_pool_dedup b v ih
  | handle_face b v1 v2 v3 _ ih => exact handle_face_pool_dedup b v1 v2 v3 ih
  | process_line b l _ ih => exact process_line_pool_dedup b l ih

/-- Claim C3 (witness): the invariant at a concrete reachable state, one
intern away from the fresh builder. -/
theorem reachable_pool_dedup_witness :
    PoolDedup ((ObjectBuilder.new.add_vertex
      ⟨(F32.zero, F32.zero, F32.zero), (F32.zero, F32.zero, F32.zero),
       (F32.zero, F32.zero)⟩).2) :=
  reachable_pool_dedup _
    (Reachable.add_vertex ObjectBuilder.new
      ⟨(F32.zero, F32.zero, F32.zero), (F32.zero, F32.zero, F32.zero),
       (F32.zero, F32.zero)⟩ Reachable.new)

/-- Claim C5 (counterexample): on corners whose texture-coordinate
references AND normal references are both present-on-some-but-not-all
(`1/1/1`, `2//`-style corner with neither, `3/3/3`), `handle_face` returns
`MissingTextureCoord`, not `MissingNormal` — so the claim's unconditional
"fails with MissingNormal symmetrically" is false: the texture-coordinate
check runs first. -/
theorem face_both_mismatch_counterexample :
    ObjectBuilder.new.handle_face ⟨1, some 1, some 1⟩ ⟨2, none, none⟩
        ⟨3, some 3, some 3⟩
      = (.error .MissingTextureCoord, ObjectBuilder.new) ∧
    (ObjectBuilder.new.handle_face ⟨1, some 1, some 1⟩ ⟨2, none, none⟩
        ⟨3, some 3, some 3⟩).1 ≠ .error .MissingNormal := by
  refine ⟨?_, ?_⟩ <;> decide

/-- Claim C5 (amended): `handle_face` fails with `MissingTextureCoord`
whenever the texture-coordinate reference is present on some but not all
corners; when the texture-coordinate references are consistent it fails
with `MissingNormal` whenever the normal references are present on some
but not all corners (the texture-coordinate check takes precedence).  Both
checks precede any resolution or interning: the results hold for every
builder state — including states where resolution would itself fail — and
return the builder unchanged. -/
theorem face_mismatch_checks (b : ObjectBuilder) (v1 v2 v3 : VertexIndices) :
    (someButNotAll v1.texture_coords.isSome v2.texture_coords.isSome
        v3.texture_coords.isSome →
      b.handle_face v1 v2 v3 = (.error .MissingTextureCoord, b)) ∧
    (¬ someButNotAll v1.texture_coords.isSome v2.texture_coords.isSome
        v3.texture_coords.isSome →
      someButNotAll v1.normal.isSome v2.normal.isSome v3.normal.isSome →
      b.handle_face v1 v2 v3 = (.error .MissingNormal, b)) := by
  constructor
  · intro h
    have hc : (v1.texture_coords.isSome != v2.texture_coords.isSome
        || v2.texture_coords.isSome != v3.texture_coords.isSome) = true :=
      (someButNotAll_iff _ _ _).mp h
    simp [ObjectBuilder.handle_face, hc]
  · intro h hn
    have hc : ¬ (v1.texture_coords.isSome != v2.texture_coords.isSome
        || v2.texture_coords.isSome != v3.texture_coords.isSome) = true :=
      fun hcontra => h ((someButNotAll_iff _ _ _).mpr hcontra)
    have hcn : (v1.normal.isSome != v2.normal.isSome
        || v2.normal.isSome != v3.normal.isSome) = true :=
      (someButNotAll_iff _ _ _).mp hn
    simp [ObjectBuilder.handle_face, hc, hcn]

/-- Claim C5 (witness): the amended claim at the spec's own example
`f 1/1/1 2//2 3/3/3` (texture-coordinate mismatch) and at a
normal-mismatch-only triple. -/
theorem face_mismatch_checks_witness :
    ObjectBuilder.new.handle_face ⟨1, some 1, some 1⟩ ⟨2, none, some 2⟩
        ⟨3, some 3, some 3⟩
      = (.error .MissingTextureCoord, ObjectBuilder.new) ∧
    ObjectBuilder.new.handle_face ⟨1, some 1, some 1⟩ ⟨2, some 2, none⟩
        ⟨3, some 3, some 3⟩
      = (.error .MissingNormal, ObjectBuilder.new) :=
  ⟨(face_mismatch_checks ObjectBuilder.new ⟨1, some 1, some 1⟩
      ⟨2, none, some 2⟩ ⟨3, some 3, some 3⟩).1 (by decide),
   (face_mismatch_checks ObjectBuilder.new ⟨1, some 1, some 1⟩
      ⟨2, some 2, none⟩ ⟨3, some 3, some 3⟩).2 (by decide) (by decide)⟩

/-- Claim C6: `get_vertex` (the spec's `resolve`) fails whenever the
position index exceeds the position-pool size, regardless of the normal and
texture-coordinate references (the position lookup runs first); an absent
normal or texture-coordinate reference does not cause failure and resolves
to the all-zero default record; and `handle_face` turns the failed
resolution into `InvalidIndex`. -/
theorem get_vertex_bounds_and_defaults (b : ObjectBuilder)
    (v : VertexIndices) :
    (b.vertices.length < v.position → b.get_vertex v = none) ∧
    (v.normal = none → ∀ mv, b.get_vertex v = some mv →
      mv.normal = (F32.zero, F32.zero, F32.zero)) ∧
    (v.texture_coords = none → ∀ mv, b.get_vertex v = some mv →
      mv.texture_coords = (F32.zero, F32.zero)) ∧
    (v.position < b.vertices.length → v.normal = none →
      v.texture_coords = none → ∃ mv, b.get_vertex v = some mv) ∧
    (b.vertices.length < v.position →
      b.handle_face v v v = (.error .InvalidIndex, b)) := by
  obtain ⟨pos, tc, nrm⟩ := v
  have hnone : b.vertices.length < pos → b.vertices[pos]? = none :=
    fun h => List.getElem?_eq_none (Nat.le_of_lt h)
  refine ⟨?_, ?_, ?_, ?_, ?_⟩
  · intro h
    simp [ObjectBuilder.get_vertex, hnone h]
  · intro hn mv hmv
    simp only at hn
    subst hn
    cases hv : b.vertices[pos]? with
    | none => simp [ObjectBuilder.get_vertex, hv] at hmv
    | some vertex =>
      cases tc with
      | none =>
        simp [ObjectBuilder.get_vertex, hv] at hmv
        rw [← hmv]
        rfl
      | some ti =>
        cases htc : b.texture_coords[ti]? with
        | none => simp [ObjectBuilder.get_vertex, hv, htc] at hmv
        | some tcv =>
          simp [ObjectBuilder.get_vertex, hv, htc] at hmv
          rw [← hmv]
          rfl
  · intro ht mv hmv
    simp only at ht
    subst ht
    cases hv : b.vertices[pos]? with
    | none => simp [ObjectBuilder.get_vertex, hv] at hmv
    | some vertex =>
      cases nrm with
      | none =>
        simp [ObjectBuilder.get_vertex, hv] at hmv
        rw [← hmv]
        rfl
      | some ni =>
        cases hn : b.normals[ni]? with
        | none => simp [ObjectBuilder.get_vertex, hv, hn] at hmv
        | some nv =>
          simp [ObjectBuilder.get_vertex, hv, hn] at hmv
          rw [← hmv]
          rfl
  · intro hlt hn ht
    simp only at hlt hn ht
    subst hn; subst ht
    have hsome := List.getElem?_eq_getElem hlt
    refine ⟨⟨(b.vertices[pos].x, b.vertices[pos].y, b.vertices[pos].z),
             (Vertex.default.x, Vertex.default.y, Vertex.default.z),
             (TextureCoords.default.u, TextureCoords.default.v)⟩, ?_⟩
    unfold ObjectBuilder.get_vertex
    rw [hsome]
  · intro h
    have hg : b.get_vertex ⟨pos, tc, nrm⟩ = none := by
      simp [ObjectBuilder.get_vertex, hnone h]
    simp [ObjectBuilder.handle_face, hg]

/-- Claim C6 (witness): the bounds/default behavior at concrete inputs on a
one-position builder: position 2 exceeds the pool size (failure and
`InvalidIndex`), position 0 with absent references resolves. -/
theorem get_vertex_bounds_and_defaults_witness :
    oneVertexBuilder.get_vertex ⟨2, some 1, some 1⟩ = none ∧
    (∃ mv, oneVertexBuilder.get_vertex ⟨0, none, none⟩ = some mv) ∧
    oneVertexBuilder.handle_face ⟨2, none, none⟩ ⟨2, none, none⟩
        ⟨2, none, none⟩ = (.error .InvalidIndex, oneVertexBuilder) :=
  ⟨(get_vertex_bounds_and_defaults oneVertexBuilder ⟨2, some 1, some 1⟩).1
      (by decide),
   (get_vertex_bounds_and_defaults oneVertexBuilder ⟨0, none, none⟩).2.2.2.1
      (by decide) rfl rfl,
   (get_vertex_bounds_and_defaults oneVertexBuilder ⟨2, none, none⟩).2.2.2.2
      (by decide)⟩

/-- Claim C7 (counterexample): a face line with four corner tokens is
accepted as a three-corner Face — the fourth token is silently ignored —
contradicting "a remainder carrying more than three corner tokens is not
accepted as a three-corner Face". -/
theorem face_extra_tokens_counterexample :
    Line.process_line "f 1 2 3 4"
      = .ok (.Face ⟨1, none, none⟩ ⟨2, none, none⟩ ⟨3, none, none⟩) := by
  decide

/-- Claim C7 (amended): the `f` parser consumes exactly the first three
space-separated corner tokens: with three or more tokens (each parsing as a
corner) it yields a Face of the first three, ignoring any extras; with
fewer than three it fails with `MissingNumber` once the present tokens have
parsed.  The concrete conjuncts exercise the whole-line parser. -/
theorem face_token_count (t1 t2 t3 : List Char) (extra : List (List Char))
    (p1 p2 p3 : VertexIndices)
    (h1 : VertexIndices.fromChars t1 = .ok p1)
    (h2 : VertexIndices.fromChars t2 = .ok p2)
    (h3 : VertexIndices.fromChars t3 = .ok p3) :
    faceFromTokens (t1 :: t2 :: t3 :: extra) = .ok (.Face p1 p2 p3) ∧
    faceFromTokens [t1, t2] = .err .MissingNumber ∧
    faceFromTokens [t1] = .err .MissingNumber ∧
    Line.process_line "f 1 2" = .err .MissingNumber ∧
    Line.process_line "f 1/1/1 2/2/2" = .err .MissingNumber := by
  refine ⟨?_, ?_, ?_, by decide, by decide⟩ <;>
    simp [faceFromTokens, h1, h2, h3]

/-- Claim C7 (witness): the amended claim at the counterexample's own
tokens. -/
theorem face_token_count_witness :
    faceFromTokens [['1'], ['2'], ['3'], ['4']]
      = .ok (.Face ⟨1, none, none⟩ ⟨2, none, none⟩ ⟨3, none, none⟩) :=
  (face_token_count ['1'] ['2'] ['3'] [['4']]
    ⟨1, none, none⟩ ⟨2, none, none⟩ ⟨3, none, none⟩
    (by decide) (by decide) (by decide)).1

/-- Claim C8 (counterexample): the attribute-index parser is not total —
on the token `1/2/3/4` the out-of-bounds write `indices[3]` panics
(`crashed`), which is neither an index triple nor an integer-parse
error. -/
theorem vertex_indices_crash_counterexample :
    VertexIndices.fromStr "1/2/3/4" = POutcome.crashed := by
  decide

/-- Claim C8 (amended): the attribute-index parser returns an index triple
or an integer-parse error for every token whose slash-segments past the
third are all empty (a successfully parsed non-empty segment past the third
panics instead); empty texture-coordinate/normal fields and fields parsing
to 0 are both stored as absent, and a stored present reference is never 0. -/
theorem vertex_indices_parse_behavior (cs : List Char)
    (h : ∀ s ∈ (splitChar '/' cs).drop 3, s.isEmpty = true) :
    ((∃ v, VertexIndices.fromChars cs = .ok v) ∨
      (∃ e, VertexIndices.fromChars cs = .err e)) ∧
    (∀ v, VertexIndices.fromChars cs = .ok v →
      v.texture_coords ≠ some 0 ∧ v.normal ≠ some 0) ∧
    VertexIndices.fromStr "1/0/0" = .ok ⟨1, none, none⟩ ∧
    VertexIndices.fromStr "5" = .ok ⟨5, none, none⟩ ∧
    VertexIndices.fromStr "5//7" = .ok ⟨5, none, some 7⟩ := by
  refine ⟨?_, ?_, by decide, by decide, by decide⟩
  · cases hr : VertexIndices.fromChars cs with
    | ok v => exact Or.inl ⟨v, rfl⟩
    | err e => exact Or.inr ⟨e, rfl⟩
    | crashed =>
      exfalso
      have hfill := fillIndices_ne_crashed (splitChar '/' cs) 0 (0, 0, 0) h
      unfold VertexIndices.fromChars at hr
      cases hf : fillIndices (splitChar '/' cs) 0 (0, 0, 0) with
      | ok a => rw [hf] at hr; exact absurd hr (by simp)
      | err e => rw [hf] at hr; exact absurd hr (by simp)
      | crashed => exact hfill hf
  · intro v hv
    unfold VertexIndices.fromChars at hv
    cases hf : fillIndices (splitChar '/' cs) 0 (0, 0, 0) with
    | ok a =>
      rw [hf] at hv
      simp only [POutcome.ok.injEq] at hv
      rw [← hv]
      exact ⟨nonZeroU32New_ne_some_zero a.2.1, nonZeroU32New_ne_some_zero a.2.2⟩
    | err e => rw [hf] at hv; exact absurd hv (by simp)
    | crashed => rw [hf] at hv; exact absurd hv (by simp)

/-- Claim C8 (witness): the amended claim's totality at the concrete token
`5//7` (no segment past the third). -/
theorem vertex_indices_parse_behavior_witness :
    (∃ v, VertexIndices.fromChars "5//7".toList = .ok v) ∨
      (∃ e, VertexIndices.fromChars "5//7".toList = .err e) :=
  (vertex_indices_parse_behavior "5//7".toList (by decide)).1

/-- Claim C1: after recording three positions, three texture coordinates
and three normals, the line `f 1/1/1 2/2/2 3/3/3` parses to a Face with
three fully-populated corners — but processing that Face FAILS with
`InvalidIndex` instead of appending 3 indices: the corner references are
used as 0-based lookups with no 1-based adjustment, so position 3 falls
outside the 3-entry pool (and corners 1 and 2 resolve to the second and
third records rather than the first and second).  The builder, with its
empty `mesh_indices`, is returned unchanged. -/
theorem face_after_three_records_fails (p1 p2 p3 n1 n2 n3 : Vertex)
    (t1 t2 t3 : TextureCoords) :
    ObjectBuilder.new.process_lines
        [.Vertex p1, .Vertex p2, .Vertex p3,
         .TextureCoords t1, .TextureCoords t2, .TextureCoords t3,
         .Normal n1, .Normal n2, .Normal n3]
      = (.ok (), recordedThree p1 p2 p3 n1 n2 n3 t1 t2 t3) ∧
    Line.process_line "f 1/1/1 2/2/2 3/3/3"
      = .ok (.Face ⟨1, some 1, some 1⟩ ⟨2, some 2, some 2⟩
          ⟨3, some 3, some 3⟩) ∧
    (recordedThree p1 p2 p3 n1 n2 n3 t1 t2 t3).process_line
        (.Face ⟨1, some 1, some 1⟩ ⟨2, some 2, some 2⟩ ⟨3, some 3, some 3⟩)
      = (.err .InvalidIndex, recordedThree p1 p2 p3 n1 n2 n3 t1 t2 t3) ∧
    (recordedThree p1 p2 p3 n1 n2 n3 t1 t2 t3).mesh_indices = [] := by
  exact ⟨rfl, by decide, rfl, rfl⟩

end Obj
